import Mathlib

/-!
Shallow embedding of `src/fpl_dashboard.py` (the Streamlit dashboard of the
FPL team selector) together with the pieces of the external
`fpl_team_selector` core that the dashboard's contract depends on.

Conventions of the embedding:
* Python floats that hold prices, points and weightings are modelled as `ℚ`
  (the dashboard only compares and echoes them; it never does float-specific
  arithmetic that the verified claims depend on).
* A Python dict key that may be absent is an `Option` field; `dict.get(k, d)`
  is `Option.getD`.
* A value that Python treats as truthy/falsy (`if solution:`) is an
  `Option Solution`: `none` models `None` / the empty dict.
* A `try/except` block is modelled by making the guarded computation return
  an explicit `raised` outcome that the handler maps to the error display.
-/

namespace FPLDashboard

/-- The four FPL positions (`position` column of a player record). -/
inductive Position
  | GKP
  | DEF
  | MID
  | FWD
deriving DecidableEq, Repr

/-- One entry of `solution['selected_players']`, with the fields the dashboard
reads at `src/fpl_dashboard.py:194-216`.  Defaults only shorten concrete
literals; they model nothing. -/
structure Player where
  id : Nat := 0
  name : String := ""
  position : Position := Position.GKP
  team_name : String := ""
  price : ℚ := 0
  proj_points : ℚ := 0
  avg_fixture_difficulty_5 : ℚ := 0
  next_5_fixtures : String := ""
  fixture_adjusted_points : ℚ := 0
  current_points_per_gw : ℚ := 0
  last_season_points_per_gw : ℚ := 0
  last_season_adjusted_points : ℚ := 0
deriving DecidableEq, Repr

/-- The solution dict returned by `solve_team_selection`, restricted to the
keys the dashboard reads.  `fixture_weighting` and `last_season_weighting`
are `Option` because the dashboard accesses them with
`solution.get(key, 0)` (`src/fpl_dashboard.py:172-177, 210-216`), i.e. it
tolerates their absence. -/
structure Solution where
  selected_players : List Player := []
  total_price : ℚ := 0
  total_proj_points : ℚ := 0
  avg_fixture_difficulty : ℚ := 0
  solver_status : String := "OPTIMAL"
  total_fixture_adjusted_points : ℚ := 0
  total_last_season_adjusted_points : ℚ := 0
  fixture_weighting : Option ℚ := none
  last_season_weighting : Option ℚ := none
  selected_ids : List Nat := []
  by_team_counts : List (String × Nat) := []
deriving DecidableEq, Repr

/-- The validation dict the dashboard reads at `src/fpl_dashboard.py:277-300`:
five booleans `valid`, `squad_size`, `budget`, `positions`, `club_limits`. -/
structure ValidationReport where
  valid : Bool := true
  squad_size : Bool := true
  budget : Bool := true
  positions : Bool := true
  club_limits : Bool := true
deriving DecidableEq, Repr

/-- Number of selected players in a given position. -/
def countPosition (ps : List Player) (pos : Position) : Nat :=
  ps.countP (fun p => p.position == pos)

/-- Number of selected players belonging to a given club. -/
def clubCount (ps : List Player) (club : String) : Nat :=
  ps.countP (fun p => p.team_name == club)

/-- Total price of a list of selected players. -/
def totalPriceOf (ps : List Player) : ℚ :=
  (ps.map Player.price).sum

/-- Modelled from the spec: `validate_solution` is a method of the external
`fpl_team_selector.FPLTeamSelector` module, which is not among this
repository's sources — the dashboard only calls it
(`src/fpl_dashboard.py:277`).  Section 4.4 of the spec pins it down: a pure
re-derivation, from the selected player set alone, of the booleans
`squad_size` (exactly 15 players), `budget` (total price ≤ 100.0),
`positions` (exactly 2 GKP, 5 DEF, 5 MID, 3 FWD) and `club_limits` (every
club contributes at most 3 players), with `valid` the conjunction of the
four. -/
def validate_solution (sol : Solution) : ValidationReport :=
  let ps := sol.selected_players
  let squad_size : Bool := ps.length == 15
  let budget : Bool := decide (totalPriceOf ps ≤ 100)
  let positions : Bool :=
    countPosition ps Position.GKP == 2 && countPosition ps Position.DEF == 5 &&
    countPosition ps Position.MID == 5 && countPosition ps Position.FWD == 3
  let club_limits : Bool := ps.all (fun p => decide (clubCount ps p.team_name ≤ 3))
  { valid := squad_size && budget && positions && club_limits
    squad_size := squad_size
    budget := budget
    positions := positions
    club_limits := club_limits }

/-- The per-player `club_limits` check over the squad itself is the same as
bounding the club count of every club: a club with no selected player has
count 0. -/
theorem clubLimits_all_iff (ps : List Player) :
    (ps.all fun p => decide (clubCount ps p.team_name ≤ 3)) = true ↔
      ∀ club : String, clubCount ps club ≤ 3 := by
  rw [List.all_eq_true]
  constructor
  · intro h club
    by_cases hmem : ∃ p ∈ ps, p.team_name = club
    · obtain ⟨p, hp, hpc⟩ := hmem
      have hb := h p hp
      rw [decide_eq_true_eq] at hb
      rwa [hpc] at hb
    · have hz : clubCount ps club = 0 := by
        rw [clubCount, List.countP_eq_zero]
        intro p hp hc
        rw [beq_iff_eq] at hc
        exact hmem ⟨p, hp, hc⟩
      omega
  · intro h p _
    exact decide_eq_true (h p.team_name)

/-- C1: `validate_solution`'s `valid` is true iff squad size is 15, total
price is at most 100.0, the position counts are exactly (2, 5, 5, 3), and
every club contributes at most 3 selected players; moreover `valid` is the
conjunction of the four individual booleans. -/
theorem validate_solution_valid_iff (sol : Solution) :
    ((validate_solution sol).valid = true ↔
      (sol.selected_players.length = 15 ∧
       totalPriceOf sol.selected_players ≤ 100 ∧
       (countPosition sol.selected_players Position.GKP = 2 ∧
        countPosition sol.selected_players Position.DEF = 5 ∧
        countPosition sol.selected_players Position.MID = 5 ∧
        countPosition sol.selected_players Position.FWD = 3) ∧
       ∀ club : String, clubCount sol.selected_players club ≤ 3)) ∧
    (validate_solution sol).valid =
      ((validate_solution sol).squad_size && (validate_solution sol).budget &&
       (validate_solution sol).positions && (validate_solution sol).club_limits) := by
  refine ⟨?_, rfl⟩
  simp only [validate_solution, Bool.and_eq_true, beq_iff_eq, decide_eq_true_eq,
    clubLimits_all_iff]
  tauto

/-- Options of the `Objective` selectbox (`src/fpl_dashboard.py:51-56`). -/
def objectiveOptions : List String := ["max_points", "max_spend"]

/-- A Streamlit slider with `min_value=0.0`, `max_value=1.0`, `step=0.1`
can only return one of the eleven values `0.0, 0.1, …, 1.0`; the step index
`k : Fin 11` determines the value `k / 10`
(`src/fpl_dashboard.py:59-75`). -/
def sliderValue (k : Fin 11) : ℚ :=
  (k : ℚ) / 10

/-- One state of the sidebar widgets: everything the user can set.  The
selectbox yields an index into `objectiveOptions`; each weighting slider
yields a step index; the three checkboxes yield booleans
(`src/fpl_dashboard.py:51-96`). -/
structure WidgetState where
  objectiveIndex : Fin 2
  fixtureSteps : Fin 11
  lastSeasonSteps : Fin 11
  require_all_starts : Bool
  max_per_team_per_position : Bool
  exclude_injury_risk : Bool
deriving DecidableEq, Repr

/-- The six arguments the dashboard passes to `solve_team_selection`
(`src/fpl_dashboard.py:145-152`). -/
structure SolveConfig where
  objective : String
  require_all_starts : Bool
  max_per_team_per_position : Bool
  exclude_injury_risk : Bool
  fixture_weighting : ℚ
  last_season_weighting : ℚ
deriving DecidableEq, Repr

/-- The parameter tuple `current_params` used to detect changes
(`src/fpl_dashboard.py:122-125`): the six solver arguments plus
`data_dir`. -/
structure Params extends SolveConfig where
  data_dir : String
deriving DecidableEq, Repr

/-- The hardcoded data directory (`src/fpl_dashboard.py:99`). -/
def dataDirDefault : String := "fpl_data"

/-- The parameters produced by a widget state, as handed to the solve call
and recorded in `current_params`. -/
def widgetParams (w : WidgetState) : Params :=
  { objective := objectiveOptions.get ⟨w.objectiveIndex.1, w.objectiveIndex.2⟩
    require_all_starts := w.require_all_starts
    max_per_team_per_position := w.max_per_team_per_position
    exclude_injury_risk := w.exclude_injury_risk
    fixture_weighting := sliderValue w.fixtureSteps
    last_season_weighting := sliderValue w.lastSeasonSteps
    data_dir := dataDirDefault }

/-- Modelled from the spec: the configuration-error rejection branch of the
external core (`fpl_team_selector`, not among this repository's sources).
Section 7(a) of the spec: "a weighting outside [0,1] or an unrecognized
objective value; rejected before any solve attempt". -/
def configurationError (c : SolveConfig) : Bool :=
  decide (c.objective ∉ objectiveOptions) ||
  decide (c.fixture_weighting < 0) || decide (1 < c.fixture_weighting) ||
  decide (c.last_season_weighting < 0) || decide (1 < c.last_season_weighting)

/-- C3: every widget state yields an objective drawn from the selectbox's
two options and weightings inside [0, 1], so the core's configuration-error
rejection never fires on a config the dashboard passes. -/
theorem widgetParams_never_rejected (w : WidgetState) :
    (widgetParams w).objective ∈ objectiveOptions ∧
    0 ≤ (widgetParams w).fixture_weighting ∧
    (widgetParams w).fixture_weighting ≤ 1 ∧
    0 ≤ (widgetParams w).last_season_weighting ∧
    (widgetParams w).last_season_weighting ≤ 1 ∧
    configurationError (widgetParams w).toSolveConfig = false := by
  have hval : ∀ k : Fin 11, 0 ≤ sliderValue k ∧ sliderValue k ≤ 1 := by
    intro k
    constructor
    · exact div_nonneg (by exact_mod_cast Nat.zero_le k.1) (by norm_num)
    · rw [sliderValue, div_le_one (by norm_num)]
      exact_mod_cast Nat.lt_succ_iff.mp k.2
  have hobj : (widgetParams w).objective ∈ objectiveOptions :=
    List.get_mem objectiveOptions _ _
  obtain ⟨hf0, hf1⟩ := hval w.fixtureSteps
  obtain ⟨hl0, hl1⟩ := hval w.lastSeasonSteps
  refine ⟨hobj, hf0, hf1, hl0, hl1, ?_⟩
  simp only [configurationError, Bool.or_eq_false_iff, decide_eq_false_iff_not,
    not_not, not_lt]
  exact ⟨⟨⟨⟨hobj, hf0⟩, hf1⟩, hl0⟩, hl1⟩

/-- The position-order key of the team table: the code maps positions to
their index in `position_order = ['GKP', 'DEF', 'MID', 'FWD']`
(`src/fpl_dashboard.py:186-191`). -/
def positionIndex : Position → Nat
  | Position.GKP => 0
  | Position.DEF => 1
  | Position.MID => 2
  | Position.FWD => 3

/-- The composite sort key of `sort_values(['position_order', 'name'])`:
player `a` precedes (or ties with) player `b` when its position comes
earlier in the fixed order, or the positions tie and its name is
lexicographically no later. -/
def rowRel (a b : Player) : Prop :=
  positionIndex a.position < positionIndex b.position ∨
    (positionIndex a.position = positionIndex b.position ∧ a.name ≤ b.name)

instance : DecidableRel rowRel := fun a b => by
  unfold rowRel
  infer_instance

instance : IsTotal Player rowRel :=
  ⟨fun a b => by
    rcases Nat.lt_trichotomy (positionIndex a.position) (positionIndex b.position) with
      h | h | h
    · exact Or.inl (Or.inl h)
    · rcases le_total a.name b.name with hn | hn
      · exact Or.inl (Or.inr ⟨h, hn⟩)
      · exact Or.inr (Or.inr ⟨h.symm, hn⟩)
    · exact Or.inr (Or.inl h)⟩

instance : IsTrans Player rowRel :=
  ⟨fun a b c hab hbc => by
    rcases hab with h1 | ⟨h1, hn1⟩ <;> rcases hbc with h2 | ⟨h2, hn2⟩
    · exact Or.inl (h1.trans h2)
    · exact Or.inl (h2 ▸ h1)
    · exact Or.inl (h1 ▸ h2)
    · exact Or.inr ⟨h1.trans h2, hn1.trans hn2⟩⟩

/-- The team table's row order: the selected players sorted by
(position order, name), as `selected_players_df.sort_values` does in both
the fresh branch (`src/fpl_dashboard.py:190-192`) and the cached branch
(`src/fpl_dashboard.py:367-369`). -/
def sortedPlayers (sol : Solution) : List Player :=
  List.insertionSort rowRel sol.selected_players

/-- C5: the displayed team table is a permutation of the solution's
`selected_players` and is ordered first by position in the fixed order
GKP, DEF, MID, FWD and then by name — whatever order the solution record
stores the players in. -/
theorem sortedPlayers_sorted (sol : Solution) :
    (sortedPlayers sol).Perm sol.selected_players ∧
      List.Sorted rowRel (sortedPlayers sol) :=
  ⟨List.perm_insertionSort rowRel sol.selected_players,
   List.sorted_insertionSort rowRel sol.selected_players⟩

/-- The column names every row of the team table receives
(`src/fpl_dashboard.py:198-207` and `375-384`). -/
def baseColumns : List String :=
  ["Photo", "Name", "Position", "Team", "Price", "Points",
   "Fixture Difficulty", "Next 5 Fixtures"]

/-- The column names of one display row, with the conditional columns added
exactly when the corresponding echoed weighting (read with
`solution.get(key, 0)`) is strictly positive
(`src/fpl_dashboard.py:209-216` and `386-393`). -/
def rowColumns (sol : Solution) : List String :=
  baseColumns ++
    (if 0 < sol.fixture_weighting.getD 0 then ["Fixture-Adj Points"] else []) ++
    (if 0 < sol.last_season_weighting.getD 0 then
      ["Current PPG", "Last Season PPG", "History-Adj Points"] else [])

/-- C6: when the echoed weightings are present, `Fixture-Adj Points`
appears in the table iff the echoed `fixture_weighting` is strictly
positive, and the three history columns appear iff the echoed
`last_season_weighting` is strictly positive. -/
theorem rowColumns_iff_weighting (sol : Solution) :
    (∀ wf : ℚ, sol.fixture_weighting = some wf →
      (("Fixture-Adj Points" ∈ rowColumns sol) ↔ 0 < wf)) ∧
    (∀ wl : ℚ, sol.last_season_weighting = some wl →
      ((("Current PPG" ∈ rowColumns sol) ↔ 0 < wl) ∧
       (("Last Season PPG" ∈ rowColumns sol) ↔ 0 < wl) ∧
       (("History-Adj Points" ∈ rowColumns sol) ↔ 0 < wl))) := by
  constructor
  · intro wf hwf
    rw [rowColumns, hwf]
    by_cases h : 0 < wf <;>
      by_cases h2 : 0 < sol.last_season_weighting.getD 0 <;>
        simp [h, h2, List.mem_append, baseColumns]
  · intro wl hwl
    rw [rowColumns, hwl]
    by_cases h : 0 < wl <;>
      by_cases h2 : 0 < sol.fixture_weighting.getD 0 <;>
        simp [h, h2, List.mem_append, baseColumns]

/-- Outcome of the guarded block `FPLTeamSelector(data_dir)` +
`solve_team_selection(...)` inside the `try` (`src/fpl_dashboard.py:139-152`):
either a truthy solution dict, a falsy result (`None`/empty — infeasible),
or an exception with its message. -/
inductive SolveResult
  | ok (sol : Solution)
  | infeasible
  | raised (msg : String)
deriving DecidableEq, Repr

/-- The interface of the external `FPLTeamSelector` object as the dashboard
sees it: the two entry points it calls, plus stand-ins for the selector's
scoring-model and constraint-set internals, which the dashboard never
touches.  The internals are part of the record precisely so that the frame
theorem can state that the page output ignores them. -/
structure CoreSelector where
  solve_team_selection : SolveConfig → SolveResult
  validate_solution : Solution → ValidationReport
  scoringInternals : Nat → ℚ
  constraintInternals : List String

/-- `st.session_state` after initialization (`src/fpl_dashboard.py:128-130`):
the parameter tuple of the last successful solve and the cached solution,
both possibly `None`. -/
structure SessionState where
  last_params : Option Params := none
  solution : Option Solution := none
deriving DecidableEq, Repr

/-- The fourth summary metric (`src/fpl_dashboard.py:171-177` and
`348-354`): fixture-adjusted points if the echoed fixture weighting is
positive, else history-adjusted points if the echoed last-season weighting
is positive, else the solver status. -/
inductive TopMetric
  | fixtureAdjusted (v : ℚ)
  | historyAdjusted (v : ℚ)
  | solverStatus (s : String)
deriving DecidableEq, Repr

/-- Selects the fourth summary metric from a solution dict, reading the
weightings with `solution.get(key, 0)`. -/
def topMetric (sol : Solution) : TopMetric :=
  if 0 < sol.fixture_weighting.getD 0 then
    TopMetric.fixtureAdjusted sol.total_fixture_adjusted_points
  else if 0 < sol.last_season_weighting.getD 0 then
    TopMetric.historyAdjusted sol.total_last_season_adjusted_points
  else
    TopMetric.solverStatus sol.solver_status

/-- Everything the fresh-solve branch renders from a solution
(`src/fpl_dashboard.py:159-323`): summary metrics, the sorted table with
its column set, the validation metrics, and the export ids. -/
structure SolutionView where
  totalCost : ℚ
  projPoints : ℚ
  avgDifficulty : ℚ
  metric : TopMetric
  tableRows : List Player
  tableColumns : List String
  validation : ValidationReport
  exportIds : List Nat
deriving DecidableEq, Repr

/-- Everything the cached branch renders (`src/fpl_dashboard.py:333-426`):
the same summary and table, but no validation section and no export
section. -/
structure CachedView where
  totalCost : ℚ
  projPoints : ℚ
  avgDifficulty : ℚ
  metric : TopMetric
  tableRows : List Player
  tableColumns : List String
deriving DecidableEq, Repr

/-- Builds the fresh-solve view; the only core call it makes is
`selector.validate_solution(solution)` (`src/fpl_dashboard.py:277`). -/
def mkView (core : CoreSelector) (sol : Solution) : SolutionView :=
  { totalCost := sol.total_price
    projPoints := sol.total_proj_points
    avgDifficulty := sol.avg_fixture_difficulty
    metric := topMetric sol
    tableRows := sortedPlayers sol
    tableColumns := rowColumns sol
    validation := core.validate_solution sol
    exportIds := sol.selected_ids }

/-- Builds the cached-branch view; it makes no core call at all. -/
def mkCachedView (sol : Solution) : CachedView :=
  { totalCost := sol.total_price
    projPoints := sol.total_proj_points
    avgDifficulty := sol.avg_fixture_difficulty
    metric := topMetric sol
    tableRows := sortedPlayers sol
    tableColumns := rowColumns sol }

/-- What the main content area shows on one rerun. -/
inductive Displayed
  | solutionView (v : SolutionView)
  | noFeasible
  | errorMsg (msg : String)
  | cachedView (v : CachedView)
  | instructions
deriving DecidableEq, Repr

/-- `auto_refresh` is hardcoded to `True` (`src/fpl_dashboard.py:102`). -/
def autoRefreshFlag : Bool := true

/-- `run_optimization` (`src/fpl_dashboard.py:105-113`): the button's value
when auto-refresh is off, else always `True`. -/
def runOptimizationFlag (button : Bool) : Bool :=
  if autoRefreshFlag then true else button

/-- `should_optimize` (`src/fpl_dashboard.py:136`). -/
def shouldOptimize (button params_changed sol_is_none : Bool) : Bool :=
  runOptimizationFlag button && (!autoRefreshFlag || params_changed || sol_is_none)

/-- One rerun of the dashboard's main content area
(`src/fpl_dashboard.py:121-429`), given the selector, the session state and
the current parameter tuple.  Returns whether the solver was invoked, the
session state after the rerun, and what was displayed.  A successful solve
stores the solution and the parameter tuple
(`src/fpl_dashboard.py:154-157`); a falsy solution shows the
"No feasible solution found" error (`:326`); an exception shows the
"Error: …" message (`:328-330`); otherwise the cached solution, if any, is
shown without calling the solver (`:333-`). -/
def renderPage (core : CoreSelector) (st : SessionState) (current : Params)
    (button : Bool) : Bool × SessionState × Displayed :=
  if shouldOptimize button (decide (st.last_params ≠ some current)) st.solution.isNone then
    match core.solve_team_selection current.toSolveConfig with
    | SolveResult.ok sol =>
        (true, ⟨some current, some sol⟩, Displayed.solutionView (mkView core sol))
    | SolveResult.infeasible => (true, st, Displayed.noFeasible)
    | SolveResult.raised m => (true, st, Displayed.errorMsg m)
  else
    match st.solution with
    | some sol => (false, st, Displayed.cachedView (mkCachedView sol))
    | none => (false, st, Displayed.instructions)

/-- With `auto_refresh` hardcoded to `True`, `should_optimize` reduces to
"parameters changed or no cached solution". -/
theorem shouldOptimize_eq (button pc n : Bool) :
    shouldOptimize button pc n = (pc || n) := by
  simp [shouldOptimize, runOptimizationFlag, autoRefreshFlag]

/-- When the solve path runs, `renderPage` is determined by the solve
outcome. -/
theorem renderPage_optimize (core : CoreSelector) (st : SessionState)
    (p : Params) (b : Bool)
    (hso : shouldOptimize b (decide (st.last_params ≠ some p))
      st.solution.isNone = true) :
    renderPage core st p b =
      match core.solve_team_selection p.toSolveConfig with
      | SolveResult.ok sol =>
          (true, ⟨some p, some sol⟩, Displayed.solutionView (mkView core sol))
      | SolveResult.infeasible => (true, st, Displayed.noFeasible)
      | SolveResult.raised m => (true, st, Displayed.errorMsg m) := by
  simp only [renderPage, hso]
  simp

/-- When the solve path is skipped, `renderPage` shows the cached solution
or the instructions. -/
theorem renderPage_skip (core : CoreSelector) (st : SessionState)
    (p : Params) (b : Bool)
    (hso : shouldOptimize b (decide (st.last_params ≠ some p))
      st.solution.isNone = false) :
    renderPage core st p b =
      match st.solution with
      | some sol => (false, st, Displayed.cachedView (mkCachedView sol))
      | none => (false, st, Displayed.instructions) := by
  simp only [renderPage, hso]
  simp

/-- C2: when the solve path runs, a falsy (infeasible) result is shown as
the dedicated no-feasible-solution error and a raised exception as the
separate error message; the two displays are distinct, and the infeasible
path produces a display, never an exception. -/
theorem infeasible_vs_error (core : CoreSelector) (st : SessionState)
    (p : Params) (b : Bool)
    (h : st.last_params ≠ some p ∨ st.solution = none) :
    (core.solve_team_selection p.toSolveConfig = SolveResult.infeasible →
      (renderPage core st p b).2.2 = Displayed.noFeasible) ∧
    (∀ m, core.solve_team_selection p.toSolveConfig = SolveResult.raised m →
      (renderPage core st p b).2.2 = Displayed.errorMsg m) ∧
    (∀ m, Displayed.noFeasible ≠ Displayed.errorMsg m) := by
  have hso : shouldOptimize b (decide (st.last_params ≠ some p))
      st.solution.isNone = true := by
    rcases h with h | h <;> simp [shouldOptimize_eq, h]
  refine ⟨?_, ?_, ?_⟩
  · intro hs
    rw [renderPage_optimize core st p b hso, hs]
  · intro m hs
    rw [renderPage_optimize core st p b hso, hs]
  · intro m hcontra
    cases hcontra

/-- C4: on a rerun the solver is invoked iff the current parameter tuple
differs from the tuple recorded at the last successful solve or no solution
is cached; with an unchanged tuple and a cached solution the page shows the
cached solution without invoking the solver. -/
theorem solver_invoked_iff (core : CoreSelector) (st : SessionState)
    (p : Params) (b : Bool) :
    ((renderPage core st p b).1 = true ↔
      (st.last_params ≠ some p ∨ st.solution = none)) ∧
    (∀ sol, st.last_params = some p → st.solution = some sol →
      renderPage core st p b = (false, st, Displayed.cachedView (mkCachedView sol))) := by
  constructor
  · by_cases hlp : st.last_params = some p
    · cases hsol : st.solution with
      | none =>
          cases hs : core.solve_team_selection p.toSolveConfig <;>
            simp [renderPage, shouldOptimize_eq, hlp, hsol, hs]
      | some sol =>
          simp [renderPage, shouldOptimize_eq, hlp, hsol]
    · cases hs : core.solve_team_selection p.toSolveConfig <;>
        simp [renderPage, shouldOptimize_eq, hlp, hs]
  · intro sol h1 h2
    simp [renderPage, shouldOptimize_eq, h1, h2]

/-- C7: the page output is a function of the two entry points alone — two
selectors agreeing on `solve_team_selection` and `validate_solution` render
identical pages whatever their scoring or constraint internals are. -/
theorem ui_uses_only_entry_points (c1 c2 : CoreSelector) (st : SessionState)
    (p : Params) (b : Bool)
    (hsolve : c1.solve_team_selection = c2.solve_team_selection)
    (hval : c1.validate_solution = c2.validate_solution) :
    renderPage c1 st p b = renderPage c2 st p b := by
  simp only [renderPage, mkView, hsolve, hval]

/-- C8: an infeasible result or an exception leaves the session state
untouched: the previously cached solution and parameter tuple survive. -/
theorem failed_solve_preserves_state (core : CoreSelector) (st : SessionState)
    (p : Params) (b : Bool) :
    (core.solve_team_selection p.toSolveConfig = SolveResult.infeasible →
      (renderPage core st p b).2.1 = st) ∧
    (∀ m, core.solve_team_selection p.toSolveConfig = SolveResult.raised m →
      (renderPage core st p b).2.1 = st) := by
  constructor
  · intro hs
    cases hso : shouldOptimize b (decide (st.last_params ≠ some p))
        st.solution.isNone with
    | true => rw [renderPage_optimize core st p b hso, hs]
    | false =>
        rw [renderPage_skip core st p b hso]
        cases st.solution <;> rfl
  · intro m hs
    cases hso : shouldOptimize b (decide (st.last_params ≠ some p))
        st.solution.isNone with
    | true => rw [renderPage_optimize core st p b hso, hs]
    | false =>
        rw [renderPage_skip core st p b hso]
        cases st.solution <;> rfl

/-- A concrete parameter tuple used by the witnesses. -/
def demoParams : Params :=
  { objective := "max_points"
    require_all_starts := true
    max_per_team_per_position := true
    exclude_injury_risk := true
    fixture_weighting := 0
    last_season_weighting := 0
    data_dir := dataDirDefault }

/-- A concrete solution dict (all fields at their defaults, both weighting
keys absent) used by the witnesses. -/
def demoSolution : Solution := {}

/-- A selector whose solve always comes back infeasible. -/
def infeasibleCore : CoreSelector :=
  { solve_team_selection := fun _ => SolveResult.infeasible
    validate_solution := fun _ => {}
    scoringInternals := fun _ => 0
    constraintInternals := [] }

/-- A selector whose solve always raises. -/
def raisingCore : CoreSelector :=
  { solve_team_selection := fun _ => SolveResult.raised "boom"
    validate_solution := fun _ => {}
    scoringInternals := fun _ => 0
    constraintInternals := [] }

/-- A selector with the same entry points as `infeasibleCore` but different
internals. -/
def alteredInternalsCore : CoreSelector :=
  { solve_team_selection := fun _ => SolveResult.infeasible
    validate_solution := fun _ => {}
    scoringInternals := fun n => (n : ℚ) + 1
    constraintInternals := ["budget"] }

theorem infeasible_vs_error_witness :
    (renderPage infeasibleCore {} demoParams true).2.2 = Displayed.noFeasible ∧
    (renderPage raisingCore {} demoParams true).2.2 = Displayed.errorMsg "boom" ∧
    Displayed.noFeasible ≠ Displayed.errorMsg "boom" :=
  ⟨(infeasible_vs_error infeasibleCore {} demoParams true (Or.inr rfl)).1 rfl,
   (infeasible_vs_error raisingCore {} demoParams true (Or.inr rfl)).2.1 "boom" rfl,
   (infeasible_vs_error infeasibleCore {} demoParams true (Or.inr rfl)).2.2 "boom"⟩

theorem solver_invoked_iff_witness :
    renderPage infeasibleCore ⟨some demoParams, some demoSolution⟩ demoParams true =
      (false, ⟨some demoParams, some demoSolution⟩,
        Displayed.cachedView (mkCachedView demoSolution)) :=
  (solver_invoked_iff infeasibleCore ⟨some demoParams, some demoSolution⟩
    demoParams true).2 demoSolution rfl rfl

theorem ui_uses_only_entry_points_witness :
    renderPage infeasibleCore {} demoParams true =
      renderPage alteredInternalsCore {} demoParams true :=
  ui_uses_only_entry_points infeasibleCore alteredInternalsCore {} demoParams true
    rfl rfl

theorem failed_solve_preserves_state_witness :
    (renderPage infeasibleCore ⟨none, some demoSolution⟩ demoParams true).2.1 =
      ⟨none, some demoSolution⟩ ∧
    (renderPage raisingCore ⟨none, some demoSolution⟩ demoParams true).2.1 =
      ⟨none, some demoSolution⟩ :=
  ⟨(failed_solve_preserves_state infeasibleCore ⟨none, some demoSolution⟩
      demoParams true).1 rfl,
   (failed_solve_preserves_state raisingCore ⟨none, some demoSolution⟩
      demoParams true).2 "boom" rfl⟩

theorem rowColumns_iff_weighting_witness :
    ("Fixture-Adj Points" ∈
      rowColumns { demoSolution with fixture_weighting := some 1 }) ∧
    ("History-Adj Points" ∉
      rowColumns { demoSolution with last_season_weighting := some 0 }) :=
  ⟨((rowColumns_iff_weighting
      { demoSolution with fixture_weighting := some 1 }).1 1 rfl).mpr zero_lt_one,
   fun hmem =>
    absurd (((rowColumns_iff_weighting
      { demoSolution with last_season_weighting := some 0 }).2 0 rfl).2.2.mp hmem)
      (lt_irrefl 0)⟩

/-- A solution dict whose `fixture_weighting` key is absent while its
`last_season_weighting` is present and positive. -/
def missingFixtureKeySolution : Solution :=
  { fixture_weighting := none, last_season_weighting := some 1 }

/-- C9 counterexample: a solution dict lacking the `fixture_weighting` key
does not in general fall through to the Solver Status metric — with a
positive `last_season_weighting` present, the history-adjusted metric is
shown instead. -/
theorem missing_key_metric_counterexample :
    missingFixtureKeySolution.fixture_weighting = none ∧
    topMetric missingFixtureKeySolution =
      TopMetric.historyAdjusted
        missingFixtureKeySolution.total_last_season_adjusted_points ∧
    topMetric missingFixtureKeySolution ≠
      TopMetric.solverStatus missingFixtureKeySolution.solver_status := by
  refine ⟨rfl, ?_, ?_⟩ <;> simp [topMetric, missingFixtureKeySolution]

/-- C9 (amended): a missing weighting key is read as 0, so the
corresponding adjusted-points columns are omitted; when both weighting keys
are missing the Solver Status metric is shown; no access fails. -/
theorem missing_weighting_defaults (sol : Solution) :
    (sol.fixture_weighting = none → "Fixture-Adj Points" ∉ rowColumns sol) ∧
    (sol.last_season_weighting = none →
      "Current PPG" ∉ rowColumns sol ∧ "Last Season PPG" ∉ rowColumns sol ∧
      "History-Adj Points" ∉ rowColumns sol) ∧
    (sol.fixture_weighting = none → sol.last_season_weighting = none →
      topMetric sol = TopMetric.solverStatus sol.solver_status) := by
  refine ⟨?_, ?_, ?_⟩
  · intro h
    rw [rowColumns, h]
    by_cases h2 : 0 < sol.last_season_weighting.getD 0 <;> simp [h2, baseColumns]
  · intro h
    rw [rowColumns, h]
    by_cases h2 : 0 < sol.fixture_weighting.getD 0 <;> simp [h2, baseColumns]
  · intro h1 h2
    rw [topMetric, h1, h2]
    simp

theorem missing_weighting_defaults_witness :
    "Fixture-Adj Points" ∉ rowColumns demoSolution ∧
    ("Current PPG" ∉ rowColumns demoSolution ∧
     "Last Season PPG" ∉ rowColumns demoSolution ∧
     "History-Adj Points" ∉ rowColumns demoSolution) ∧
    topMetric demoSolution = TopMetric.solverStatus demoSolution.solver_status :=
  ⟨(missing_weighting_defaults demoSolution).1 rfl,
   (missing_weighting_defaults demoSolution).2.1 rfl,
   (missing_weighting_defaults demoSolution).2.2 rfl rfl⟩

/-- The observable states of `data_dir/player_pics.json` that
`load_player_pics` distinguishes (`src/fpl_dashboard.py:29-39`): absent
(`pics_path.exists()` is false), present but unreadable (`open` raises),
present but not valid JSON (`json.load` raises), or valid with a parsed
id-to-URL mapping. -/
inductive PicsFile
  | absent
  | unreadable
  | malformed
  | valid (mapping : List (String × String))
deriving DecidableEq, Repr

/-- `pics_path.exists()`. -/
def picsExists : PicsFile → Bool
  | PicsFile.absent => false
  | _ => true

/-- `open(pics_path)` followed by `json.load(f)`: raises on an absent or
unreadable file or malformed JSON, else yields the mapping. -/
def openAndParse : PicsFile → Except String (List (String × String))
  | PicsFile.absent => Except.error "FileNotFoundError"
  | PicsFile.unreadable => Except.error "OSError"
  | PicsFile.malformed => Except.error "JSONDecodeError"
  | PicsFile.valid mapping => Except.ok mapping

/-- The body of the `try` block (`src/fpl_dashboard.py:33-37`): return the
parsed JSON when the file exists, the empty dict when it does not. -/
def load_player_pics_body (f : PicsFile) : Except String (List (String × String)) :=
  if picsExists f then openAndParse f else Except.ok []

/-- `load_player_pics`: the `try` body with every exception mapped to the
empty dict by the `except Exception` handler (`src/fpl_dashboard.py:38-39`). -/
def load_player_pics (f : PicsFile) : List (String × String) :=
  match load_player_pics_body f with
  | Except.ok mapping => mapping
  | Except.error _ => []

/-- C10: `load_player_pics` always returns a dictionary — the parsed
mapping when the file exists with valid JSON, and the empty dictionary when
the file is absent, unreadable or malformed. -/
theorem load_player_pics_total (f : PicsFile) :
    (∀ mapping, f = PicsFile.valid mapping → load_player_pics f = mapping) ∧
    ((∀ mapping, f ≠ PicsFile.valid mapping) → load_player_pics f = []) := by
  cases f with
  | absent => exact ⟨fun _ h => PicsFile.noConfusion h, fun _ => rfl⟩
  | unreadable => exact ⟨fun _ h => PicsFile.noConfusion h, fun _ => rfl⟩
  | malformed => exact ⟨fun _ h => PicsFile.noConfusion h, fun _ => rfl⟩
  | valid mapping =>
      refine ⟨?_, fun h => absurd rfl (h mapping)⟩
      intro m h
      cases h
      rfl

theorem load_player_pics_total_witness :
    load_player_pics (PicsFile.valid [("1", "u1"), ("2", "u2")]) =
      [("1", "u1"), ("2", "u2")] ∧
    load_player_pics PicsFile.malformed = [] ∧
    load_player_pics PicsFile.absent = [] :=
  ⟨(load_player_pics_total (PicsFile.valid [("1", "u1"), ("2", "u2")])).1 _ rfl,
   (load_player_pics_total PicsFile.malformed).2 (fun _ h => PicsFile.noConfusion h),
   (load_player_pics_total PicsFile.absent).2 (fun _ h => PicsFile.noConfusion h)⟩

end FPLDashboard
